import Mathlib

/-!
Shallow embedding of `main.py` from the alfred-time repository.

The script resolves a date-like input (CLI argument or clipboard) to an
epoch instant, expands it into local/UTC display items, and prints a JSON
item list for a launcher.  External processes (`pbpaste`, GNU `date`) are
modelled as oracles inside a `World`; Python exceptions are modelled with
`Except PyExc`; Python `int(s)` is modelled by `pyIntOfString`.
-/

namespace AlfredTime

/-- The Python exceptions that can arise in `main.py`'s control flow. -/
inductive PyExc where
  | fileNotFound
  | calledProcessError
  | valueError
  | indexError
deriving DecidableEq, Repr

/-- Outcome of invoking an external process via `subprocess.check_output`:
the executable may be missing (raises `FileNotFoundError`), exit non-zero
(raises `CalledProcessError`), or succeed with some stdout text. -/
inductive ProcResult where
  | missing
  | failExit
  | ok (out : String)
deriving DecidableEq, Repr

/-- ASCII whitespace recognized by Python's `str.strip()`. -/
def isPySpace (c : Char) : Bool :=
  c = ' ' || c = '\t' || c = '\n' || c = '\r' || c = '\x0b' || c = '\x0c'

/-- Python `str.strip()`: remove leading and trailing whitespace. -/
def pyStrip (s : String) : String :=
  String.mk (((s.toList.dropWhile isPySpace).reverse.dropWhile isPySpace).reverse)

/-- Python `str.lower()` (ASCII fragment). -/
def pyLower (s : String) : String :=
  String.mk (s.toList.map Char.toLower)

/-- No two consecutive underscores (Python int literals allow single
underscores between digits only). -/
def noDoubleUnderscore : List Char → Bool
  | '_' :: '_' :: _ => false
  | _ :: rest => noDoubleUnderscore rest
  | [] => true

/-- Validity of a digit body per Python `int()`: non-empty, starts and
ends with a digit, only digits and single interior underscores. -/
def validDigitBody (cs : List Char) : Bool :=
  match cs with
  | [] => false
  | c :: _ =>
    c.isDigit
      && (match cs.getLast? with | some d => d.isDigit | none => false)
      && cs.all (fun x => x.isDigit || x = '_')
      && noDoubleUnderscore cs

/-- Numeric value of a valid digit body, ignoring underscores. -/
def natOfDigitBody (cs : List Char) : Nat :=
  cs.foldl (fun n c => if c = '_' then n else n * 10 + (c.toNat - 48)) 0

/-- Python `int(s)` for a base-10 string (ASCII fragment): strips
whitespace, allows an optional sign, digits with single interior
underscores.  Returns `none` where Python raises `ValueError`. -/
def pyIntOfString (s : String) : Option Int :=
  let cs := (pyStrip s).toList
  match cs with
  | '+' :: rest =>
    if validDigitBody rest then some (Int.ofNat (natOfDigitBody rest)) else none
  | '-' :: rest =>
    if validDigitBody rest then some (-(Int.ofNat (natOfDigitBody rest))) else none
  | rest =>
    if validDigitBody rest then some (Int.ofNat (natOfDigitBody rest)) else none

/-- `atoi` from `main.py`: `int(s)` with `ValueError` mapped to `None`. -/
def atoi (s : String) : Option Int := pyIntOfString s

/-- The three string formats of the `Format` enum in `main.py`. -/
inductive Format where
  | SANS_TIMEZONE
  | WITH_TIMEZONE
  | TIMESTAMP
deriving DecidableEq, Repr

/-- `DOCS` constant from `main.py`. -/
def DOCS : String :=
  "https://www.gnu.org/software/coreutils/manual/html_node/Date-input-formats.html"

/-- `DEFAULT_FORMAT` from `main.py`. -/
def DEFAULT_FORMAT : Format := Format.SANS_TIMEZONE

/-- The `Source` enum from `main.py`. -/
inductive Source where
  | CURRENT
  | CLIPBOARD
  | ARGUMENT
deriving DecidableEq, Repr

/-- `Source.name.title()` as used in the subtitle. -/
def sourceTitle : Source → String
  | Source.CURRENT => "Current"
  | Source.CLIPBOARD => "Clipboard"
  | Source.ARGUMENT => "Argument"

/-- `Format.name.replace('_', ' ').title()` as used in the subtitle. -/
def formatTitle : Format → String
  | Format.SANS_TIMEZONE => "Sans Timezone"
  | Format.WITH_TIMEZONE => "With Timezone"
  | Format.TIMESTAMP => "Timestamp"

/-- An aware `datetime`: an absolute instant (epoch seconds) together with
the display offset (seconds east of UTC) and the `tzinfo` display name. -/
structure DT where
  epoch : Int
  offsetSec : Int
  tzName : String
deriving DecidableEq, Repr

/-- The wall-clock reading of an aware datetime, as seconds since the
epoch of its zone's local clock: what the date-time rendering displays. -/
def wallSeconds (d : DT) : Int := d.epoch + d.offsetSec

/-- Recovering the absolute epoch from a rendering via its own offset:
wall-clock seconds minus the offset. -/
def epochFromRendering (d : DT) : Int := wallSeconds d - d.offsetSec

/-- Civil date (year, month, day) from a count of days since 1970-01-01,
by the standard Gregorian algorithm. -/
def civilFromDays (z : Int) : Int × Nat × Nat :=
  let z' := z + 719468
  let era := Int.fdiv z' 146097
  let doe := (z' - era * 146097).toNat
  let yoe := (doe - doe / 1460 + doe / 36524 - doe / 146096) / 365
  let y := era * 400 + Int.ofNat yoe
  let doy := doe - (365 * yoe + yoe / 4 - yoe / 100)
  let mp := (5 * doy + 2) / 153
  let d := doy - (153 * mp + 2) / 5 + 1
  let m := if mp < 10 then mp + 3 else mp - 9
  (if m ≤ 2 then y + 1 else y, m, d)

/-- Zero-pad a natural below 100 to two digits. -/
def pad2 (n : Nat) : String :=
  if n < 10 then "0" ++ toString n else toString n

/-- Render a year as `%Y` does for the common range. -/
def padYear (y : Int) : String :=
  if y < 0 then "-" ++ toString (-y)
  else
    let s := toString y
    if y < 10 then "000" ++ s
    else if y < 100 then "00" ++ s
    else if y < 1000 then "0" ++ s
    else s

/-- Render a wall-clock reading (seconds since epoch of the local clock)
as `%Y-%m-%d %H:%M:%S`. -/
def renderWall (wall : Int) : String :=
  let days := Int.fdiv wall 86400
  let sod := (wall - days * 86400).toNat
  let ymd := civilFromDays days
  padYear ymd.1 ++ "-" ++ pad2 ymd.2.1 ++ "-" ++ pad2 ymd.2.2 ++ " " ++
    pad2 (sod / 3600) ++ ":" ++ pad2 ((sod % 3600) / 60) ++ ":" ++ pad2 (sod % 60)

/-- Render a UTC offset as `%z` does: `+HHMM` (with seconds appended only
when the offset is not a whole number of minutes). -/
def renderOffset (off : Int) : String :=
  let sign := if off < 0 then "-" else "+"
  let a := off.natAbs
  sign ++ pad2 (a / 3600) ++ pad2 ((a % 3600) / 60) ++
    (if a % 60 = 0 then "" else pad2 (a % 60))

/-- `dt.strftime(fmt)` for the three formats of the `Format` enum.
`%s` is the epoch-seconds rendering. -/
def render (d : DT) : Format → String
  | Format.SANS_TIMEZONE => renderWall (wallSeconds d)
  | Format.WITH_TIMEZONE => renderWall (wallSeconds d) ++ renderOffset d.offsetSec
  | Format.TIMESTAMP => toString d.epoch

/-- The `DatetimeItem` dataclass from `main.py`. -/
structure DatetimeItem where
  dt : DT
  source : Source
  format_ : Format
deriving DecidableEq, Repr

/-- The rendered record returned by `DatetimeItem.dict` (and, without
`mods`, by serializing a plain `Item`): title, subtitle, arg, and the
`mods` mapping whose values are rendered records themselves. -/
inductive ItemJson where
  | mk (title subtitle arg : String) (mods : List (String × ItemJson))

/-- Title field of a rendered record. -/
def ItemJson.title : ItemJson → String
  | ItemJson.mk t _ _ _ => t

/-- Subtitle field of a rendered record. -/
def ItemJson.subtitle : ItemJson → String
  | ItemJson.mk _ s _ _ => s

/-- Arg (copy-value) field of a rendered record. -/
def ItemJson.arg : ItemJson → String
  | ItemJson.mk _ _ a _ => a

/-- Mods field of a rendered record. -/
def ItemJson.mods : ItemJson → List (String × ItemJson)
  | ItemJson.mk _ _ _ m => m

/-- Rank used to show `DatetimeItem.dict`'s recursion terminates: only the
default format spawns nested renderings, and those use other formats. -/
def fmtRank : Format → Nat
  | Format.SANS_TIMEZONE => 1
  | _ => 0

/-- `DatetimeItem.dict` from `main.py`: the rendered record, with `mods`
populated (recursively rendering a `cmd` timestamp variant and a `ctrl`
with-timezone variant) exactly when the format is the default one. -/
def DatetimeItem.dict (it : DatetimeItem) : ItemJson :=
  let mods : List (String × ItemJson) :=
    if h : it.format_ = DEFAULT_FORMAT then
      [("cmd", DatetimeItem.dict ⟨it.dt, it.source, Format.TIMESTAMP⟩),
       ("ctrl", DatetimeItem.dict ⟨it.dt, it.source, Format.WITH_TIMEZONE⟩)]
    else []
  ItemJson.mk
    (render it.dt Format.WITH_TIMEZONE)
    ("Copy " ++ sourceTitle it.source ++ " Time " ++ formatTitle it.format_ ++
      " To Clipboard (" ++ it.dt.tzName ++ ")")
    (render it.dt it.format_)
    mods
termination_by fmtRank it.format_
decreasing_by
  all_goals simp [h, DEFAULT_FORMAT, fmtRank]

/-- The plain `Item` dataclass from `main.py`. -/
structure Item where
  title : String
  subtitle : String
  arg : String
deriving DecidableEq, Repr

/-- One element of the serialized `items` array: either a `DatetimeItem`
(serialized through its `dict` property) or a plain `Item`. -/
inductive Entry where
  | dtItem (j : ItemJson)
  | plain (i : Item)

/-- The environment of one invocation: the argv vector, the outcome of the
`pbpaste` process, the outcome of the `date --date=<s> +%s` process for
each query string, the current wall-clock epoch, and the local zone. -/
structure World where
  argv : List String
  clipboard : ProcResult
  gdateProc : String → ProcResult
  nowEpoch : Int
  localOffset : Int
  localTzName : String

/-- `read_from_clipboard` from `main.py`: `pbpaste` output, decoded and
stripped.  No exception is caught, so a missing process or a non-zero
exit propagates. -/
def read_from_clipboard (w : World) : Except PyExc String :=
  match w.clipboard with
  | ProcResult.missing => Except.error PyExc.fileNotFound
  | ProcResult.failExit => Except.error PyExc.calledProcessError
  | ProcResult.ok s => Except.ok (pyStrip s)

/-- `gdate` from `main.py`: run `date --date=<s> +%s`, strip and
`int()`-parse the output.  Only `CalledProcessError` (non-zero exit) is
caught and mapped to `None`; a missing executable raises
`FileNotFoundError` and unparsable output raises `ValueError`, both
uncaught here. -/
def gdate (w : World) (date : String) : Except PyExc (Option Int) :=
  match w.gdateProc date with
  | ProcResult.missing => Except.error PyExc.fileNotFound
  | ProcResult.failExit => Except.ok none
  | ProcResult.ok out =>
    match pyIntOfString (pyStrip out) with
    | some n => Except.ok (some n)
    | none => Except.error PyExc.valueError

/-- The expression `atoi(x) or gdate(x)` from `main.py`, with the list of
query strings passed to the `date` process recorded as a trace.  Python
truthiness: `atoi` succeeding with `0` is falsy, so `gdate` is still
evaluated in that case. -/
def resolveStr (w : World) (s : String) : Except PyExc (Option Int) × List String :=
  match atoi s with
  | some n => if n = 0 then (gdate w s, [s]) else (Except.ok (some n), [])
  | none => (gdate w s, [s])

/-- The effective argument: `sys.argv[1].strip().lower()` when a CLI
argument is present, else the empty string. -/
def effectiveArg (w : World) : String :=
  if w.argv.length > 1 then pyLower (pyStrip (w.argv.getD 1 "")) else ""

/-- The source tag chosen in `main.py` lines 103 and 107: `ARGUMENT` when
the effective argument is non-empty, else `CLIPBOARD`. -/
def inputSource (w : World) : Source :=
  if effectiveArg w ≠ "" then Source.ARGUMENT else Source.CLIPBOARD

/-- `datetime.fromtimestamp(ts).astimezone()` (and likewise
`datetime.now().astimezone()`): the instant attached to the local zone. -/
def localDT (w : World) (ts : Int) : DT :=
  ⟨ts, w.localOffset, w.localTzName⟩

/-- `datetime.fromtimestamp(t.timestamp(), timezone.utc)`: the same
absolute instant re-zoned to UTC. -/
def utcOf (t : DT) : DT := ⟨t.epoch, 0, "UTC"⟩

/-- The two items appended per resolved datetime in the loop of
`main.py` lines 112-115: the local rendering then the UTC rendering,
both with the default format. -/
def zonePair (t : DT) (s : Source) : List Entry :=
  [Entry.dtItem (DatetimeItem.dict ⟨t, s, DEFAULT_FORMAT⟩),
   Entry.dtItem (DatetimeItem.dict ⟨utcOf t, s, DEFAULT_FORMAT⟩)]

/-- The trailing documentation item appended at `main.py` line 116. -/
def docsEntry : Entry :=
  Entry.plain ⟨DOCS, "Visit `gdate` docs", DOCS⟩

/-- Lines 108-116 of `main.py`: the input-derived datetime (kept only
when `ts` is truthy, i.e. a non-zero integer), the current datetime,
their local/UTC expansions, and the docs item. -/
def buildItems (w : World) (ts : Option Int) (source : Source) : List Entry :=
  let datetimes : List (DT × Source) :=
    (match ts with
     | some n => if n = 0 then [] else [(localDT w n, source)]
     | none => []) ++ [(localDT w w.nowEpoch, Source.CURRENT)]
  (datetimes.foldr (fun p acc => zonePair p.1 p.2 ++ acc) []) ++ [docsEntry]

/-- What one invocation does observably: print the JSON item list and
exit 0, print an `Invalid input: ...` line and exit 1 (the `IndexError`
handler), or die with an uncaught exception (non-zero exit, no list). -/
inductive RunResult where
  | printed (items : List Entry)
  | invalidInput
  | crash (e : PyExc)

/-- Records which collaborators an invocation reached: whether `pbpaste`
was invoked, and every query string passed to the `date` process. -/
structure Trace where
  clipboardCalled : Bool
  gdateCalls : List String

/-- The body of `main` (lines 99-121): determine the effective input and
source, resolve it, build and print the item list. -/
def runBody (w : World) : Except PyExc (List Entry) × Trace :=
  let arg := effectiveArg w
  if arg ≠ "" then
    let r := resolveStr w arg
    (r.1.map (fun ts => buildItems w ts Source.ARGUMENT), ⟨false, r.2⟩)
  else
    match read_from_clipboard w with
    | Except.error e => (Except.error e, ⟨true, []⟩)
    | Except.ok cb =>
      let r := resolveStr w cb
      (r.1.map (fun ts => buildItems w ts Source.CLIPBOARD), ⟨true, r.2⟩)

/-- `main` from `main.py`: the body wrapped in `try/except IndexError`;
an `IndexError` becomes the `Invalid input` exit-1 path, any other
exception propagates as a crash. -/
def run (w : World) : RunResult × Trace :=
  match runBody w with
  | (Except.ok items, tr) => (RunResult.printed items, tr)
  | (Except.error PyExc.indexError, tr) => (RunResult.invalidInput, tr)
  | (Except.error e, tr) => (RunResult.crash e, tr)

/-! ### Helper lemmas -/

/-- `run` passes the trace of `runBody` through unchanged. -/
lemma run_snd (w : World) : (run w).2 = (runBody w).2 := by
  unfold run
  rcases hb : runBody w with ⟨res, tr⟩
  rcases res with e | items
  · cases e <;> rfl
  · rfl

/-- `runBody` in the argument branch. -/
lemma runBody_arg (w : World) (ha : effectiveArg w ≠ "") :
    runBody w =
      ((resolveStr w (effectiveArg w)).1.map
          (fun ts => buildItems w ts Source.ARGUMENT),
        ⟨false, (resolveStr w (effectiveArg w)).2⟩) := by
  simp [runBody, ha]

/-- `runBody` in the clipboard branch, when the clipboard read raises. -/
lemma runBody_clip_err (w : World) (ha : effectiveArg w = "") (e : PyExc)
    (hc : read_from_clipboard w = Except.error e) :
    runBody w = (Except.error e, ⟨true, []⟩) := by
  simp [runBody, ha, hc]

/-- `runBody` in the clipboard branch, when the clipboard read succeeds. -/
lemma runBody_clip_ok (w : World) (cb : String) (ha : effectiveArg w = "")
    (hc : read_from_clipboard w = Except.ok cb) :
    runBody w =
      ((resolveStr w cb).1.map (fun ts => buildItems w ts Source.CLIPBOARD),
        ⟨true, (resolveStr w cb).2⟩) := by
  simp [runBody, ha, hc]

/-- The only exceptions out of `read_from_clipboard`. -/
lemma read_from_clipboard_error (w : World) (e : PyExc)
    (h : read_from_clipboard w = Except.error e) :
    e = PyExc.fileNotFound ∨ e = PyExc.calledProcessError := by
  unfold read_from_clipboard at h
  rcases hg : w.clipboard with _ | _ | s <;> rw [hg] at h <;> simp at h <;>
    simp [← h]

/-- The only exceptions out of `gdate`. -/
lemma gdate_error (w : World) (s : String) (e : PyExc)
    (h : gdate w s = Except.error e) :
    e = PyExc.fileNotFound ∨ e = PyExc.valueError := by
  unfold gdate at h
  rcases hg : w.gdateProc s with _ | _ | out <;> rw [hg] at h
  · simp at h; simp [← h]
  · simp at h
  · simp only [] at h
    split at h
    · simp at h
    · simp at h; simp [← h]

/-- The only exceptions out of `atoi(x) or gdate(x)`. -/
lemma resolveStr_error (w : World) (s : String) (e : PyExc)
    (h : (resolveStr w s).1 = Except.error e) :
    e = PyExc.fileNotFound ∨ e = PyExc.valueError := by
  unfold resolveStr at h
  rcases hat : atoi s with _ | n <;> rw [hat] at h
  · exact gdate_error w s e h
  · by_cases hn : n = 0
    · rw [hn] at h; simp at h
      exact gdate_error w s e h
    · simp [hn] at h

/-- The item list built at lines 108-116 is the input-derived zone pair
(present only for a truthy `ts`), then the current-time zone pair, then
the docs item. -/
lemma buildItems_eq (w : World) (ts : Option Int) (source : Source) :
    buildItems w ts source =
      (match ts with
       | some n => if n = 0 then [] else zonePair (localDT w n) source
       | none => []) ++
      (zonePair (localDT w w.nowEpoch) Source.CURRENT ++ [docsEntry]) := by
  rcases ts with _ | n
  · simp [buildItems]
  · by_cases h : n = 0 <;> simp [buildItems, h]

/-- `run` prints `items` exactly when the body returns them. -/
lemma run_printed_iff (w : World) (items : List Entry) :
    (run w).1 = RunResult.printed items ↔ (runBody w).1 = Except.ok items := by
  unfold run
  rcases hb : runBody w with ⟨res, tr⟩
  rcases res with e | its
  · cases e <;> simp
  · simp

/-- A printed item list is `buildItems` at some resolved timestamp and
the input source of the run. -/
lemma printed_buildItems (w : World) (items : List Entry)
    (h : (run w).1 = RunResult.printed items) :
    ∃ ts : Option Int, items = buildItems w ts (inputSource w) := by
  rw [run_printed_iff] at h
  by_cases ha : effectiveArg w = ""
  · rcases hc : read_from_clipboard w with e | cb
    · rw [runBody_clip_err w ha e hc] at h
      simp at h
    · rw [runBody_clip_ok w cb ha hc] at h
      rcases hr : (resolveStr w cb).1 with e | ts <;> rw [hr] at h
      · simp [Except.map] at h
      · refine ⟨ts, ?_⟩
        simp [Except.map] at h
        simp [inputSource, ha, ← h]
  · rw [runBody_arg w ha] at h
    rcases hr : (resolveStr w (effectiveArg w)).1 with e | ts <;> rw [hr] at h
    · simp [Except.map] at h
    · refine ⟨ts, ?_⟩
      simp [Except.map] at h
      simp [inputSource, ha, ← h]

/-- The body never raises `IndexError`: its only exceptions come from the
collaborator processes. -/
lemma runBody_no_indexError (w : World) :
    (runBody w).1 ≠ Except.error PyExc.indexError := by
  intro h
  by_cases ha : effectiveArg w = ""
  · rcases hc : read_from_clipboard w with e | cb
    · rw [runBody_clip_err w ha e hc] at h
      simp at h
      rcases read_from_clipboard_error w e hc with h1 | h1 <;> simp [h1] at h
    · rw [runBody_clip_ok w cb ha hc] at h
      rcases hr : (resolveStr w cb).1 with e | ts <;> rw [hr] at h <;>
        simp [Except.map] at h
      rcases resolveStr_error w cb e hr with h1 | h1 <;> simp [h1] at h
  · rw [runBody_arg w ha] at h
    rcases hr : (resolveStr w (effectiveArg w)).1 with e | ts <;> rw [hr] at h <;>
      simp [Except.map] at h
    rcases resolveStr_error w (effectiveArg w) e hr with h1 | h1 <;>
      simp [h1] at h

/-- Discriminator for the `Invalid input`/exit-1 outcome. -/
def RunResult.isInvalidInput : RunResult → Bool
  | RunResult.invalidInput => true
  | _ => false

/-- A body exception other than `IndexError` makes `run` crash with it. -/
lemma run_fst_of_error (w : World) (e : PyExc) (tr : Trace)
    (he : e ≠ PyExc.indexError) (h : runBody w = (Except.error e, tr)) :
    (run w).1 = RunResult.crash e := by
  unfold run
  rw [h]
  cases e
  · rfl
  · rfl
  · rfl
  · exact absurd rfl he

/-! ### Concrete worlds used as witnesses and counterexamples -/

/-- A `date` process that always exits non-zero. -/
def gdAlwaysFail : String → ProcResult := fun _ => ProcResult.failExit

/-- Invocation with argument `"0"` and a failing `date` process. -/
def wZero : World := ⟨["prog", "0"], ProcResult.missing, gdAlwaysFail, 100, 3600, "CET"⟩

/-- Invocation with argument `"abc"` where `date` rejects `"abc"` but
would accept `"@abc"`. -/
def wAtFallback : World :=
  ⟨["prog", "abc"], ProcResult.missing,
    fun q => if q = "@abc" then ProcResult.ok "123" else ProcResult.failExit,
    100, 0, "UTC"⟩

/-- Invocation with no argument and a missing `pbpaste` executable. -/
def wClipMissing : World := ⟨["prog"], ProcResult.missing, gdAlwaysFail, 100, 0, "UTC"⟩

/-- Invocation with a whitespace-only argument. -/
def wWsArg : World := ⟨["prog", "   "], ProcResult.ok "xyz", gdAlwaysFail, 100, 0, "UTC"⟩

/-- Invocation with a garbage argument and a failing `date` process. -/
def wGarbage : World := ⟨["prog", "garbage"], ProcResult.missing, gdAlwaysFail, 100, 0, "UTC"⟩

/-- Invocation with argument `"42"`. -/
def wArg42 : World := ⟨["prog", "42"], ProcResult.missing, gdAlwaysFail, 100, 3600, "CET"⟩

/-- The item list printed by the `wArg42` invocation. -/
def items42 : List Entry := buildItems wArg42 (some 42) Source.ARGUMENT

/-- Invocation with argument `"7"`. -/
def wArg7 : World := ⟨["prog", "7"], ProcResult.missing, gdAlwaysFail, 100, 0, "UTC"⟩

/-- The item list printed by the `wArg7` invocation. -/
def items7 : List Entry := buildItems wArg7 (some 7) Source.ARGUMENT

/-- Invocation with empty argv and a clipboard process exiting non-zero. -/
def wEmptyArgv : World := ⟨[], ProcResult.failExit, gdAlwaysFail, 100, 0, "UTC"⟩

/-- Invocation with argument `"abc"` that the `date` process resolves to
epoch `0`. -/
def wDateZero : World :=
  ⟨["prog", "abc"], ProcResult.missing,
    fun q => if q = "abc" then ProcResult.ok "0" else ProcResult.failExit,
    100, 0, "UTC"⟩

/-- Invocation with no argument, clipboard text `"garbage"`, and a `date`
process that exits non-zero. -/
def wClipGarbage : World := ⟨["prog"], ProcResult.ok "garbage", gdAlwaysFail, 100, 0, "UTC"⟩

/-- Invocation with no argument and a clipboard process exiting non-zero. -/
def wClipFailExit : World := ⟨["prog"], ProcResult.failExit, gdAlwaysFail, 100, 0, "UTC"⟩

/-- Invocation with argument `"later"` and a missing `date` executable. -/
def wDateMissing : World :=
  ⟨["prog", "later"], ProcResult.missing, fun _ => ProcResult.missing, 100, 0, "UTC"⟩

/-- Invocation with no argument whose clipboard text `"abc"` the `date`
process resolves to epoch `0`. -/
def wClipZero : World :=
  ⟨["prog"], ProcResult.ok "abc",
    fun q => if q = "abc" then ProcResult.ok "0" else ProcResult.failExit,
    100, 0, "UTC"⟩

/-! ### Claims -/

/-- C1 (amended): for every input string that parses as a base-10 integer
`n` with `n ≠ 0`, `atoi(x) or gdate(x)` yields epoch `n` directly and the
`date` collaborator is not invoked (empty call trace). -/
theorem resolveStr_int_nonzero_direct (w : World) (s : String) (n : Int)
    (h1 : atoi s = some n) (h2 : n ≠ 0) :
    resolveStr w s = (Except.ok (some n), []) := by
  simp [resolveStr, h1, h2]

/-- Witness for C1: input `"42"` resolves to epoch 42 with no `date`
call. -/
theorem resolveStr_int_nonzero_direct_witness :
    atoi "42" = some 42 ∧ (42 : Int) ≠ 0 ∧
      resolveStr wZero "42" = (Except.ok (some 42), []) :=
  ⟨by decide, by decide,
    resolveStr_int_nonzero_direct wZero "42" 42 (by decide) (by decide)⟩

/-- Counterexample to C1 as stated: the input `"0"` parses as integer 0,
yet the `date` collaborator is invoked with `"0"`, and resolution yields
no epoch at all when that call exits non-zero. -/
theorem resolveStr_zero_invokes_gdate :
    atoi "0" = some 0 ∧ (resolveStr wZero "0").2 = ["0"] ∧
      (resolveStr wZero "0").1 = Except.ok none := by
  refine ⟨by decide, by decide, rfl⟩

/-- C2 (amended): for every input that fails integer parsing, resolution
delegates to the `date` collaborator exactly once, with the unmodified
input; and if that single delegation exits non-zero, resolution fails. -/
theorem resolveStr_nonint_delegates_once (w : World) (s : String)
    (h : atoi s = none) :
    (resolveStr w s).2 = [s] ∧
      (w.gdateProc s = ProcResult.failExit →
        (resolveStr w s).1 = Except.ok none) := by
  refine ⟨by simp [resolveStr, h], fun hf => ?_⟩
  simp [resolveStr, h, gdate, hf]

/-- Witness for C2: input `"abc"` is delegated once, and fails. -/
theorem resolveStr_nonint_delegates_once_witness :
    (resolveStr wAtFallback "abc").2 = ["abc"] ∧
      (wAtFallback.gdateProc "abc" = ProcResult.failExit →
        (resolveStr wAtFallback "abc").1 = Except.ok none) :=
  resolveStr_nonint_delegates_once wAtFallback "abc" (by decide)

/-- Counterexample to C2 as stated: for input `"abc"` the `date` process
is invoked only with `"abc"` — never with `"@abc"` — although the
`"@abc"` query would have succeeded; resolution simply fails. -/
theorem resolveStr_no_at_fallback :
    (resolveStr wAtFallback "abc").2 = ["abc"] ∧
      wAtFallback.gdateProc "@abc" = ProcResult.ok "123" ∧
      (resolveStr wAtFallback "abc").1 = Except.ok none := by
  refine ⟨by decide, by decide, rfl⟩

/-- C3 (amended): whenever the `date` helper is actually invoked (the
effective input fails integer parsing or parses to the falsy `0`, in
either the argument or the clipboard branch) and exits non-zero, the
failure is absorbed as a resolution failure and the run still prints the
normal three-item list with exit code 0; but a clipboard process exiting
non-zero, and a missing `date` executable, are not absorbed — the run
crashes with the corresponding uncaught exception. -/
theorem run_absorbs_date_nonzero_exit (w : World) :
    (effectiveArg w ≠ "" →
      (atoi (effectiveArg w) = none ∨ atoi (effectiveArg w) = some 0) →
      w.gdateProc (effectiveArg w) = ProcResult.failExit →
      (run w).1 = RunResult.printed (buildItems w none Source.ARGUMENT) ∧
        (buildItems w none Source.ARGUMENT).length = 3) ∧
    (∀ cb : String, effectiveArg w = "" →
      read_from_clipboard w = Except.ok cb →
      (atoi cb = none ∨ atoi cb = some 0) →
      w.gdateProc cb = ProcResult.failExit →
      (run w).1 = RunResult.printed (buildItems w none Source.CLIPBOARD) ∧
        (buildItems w none Source.CLIPBOARD).length = 3) ∧
    (effectiveArg w = "" → w.clipboard = ProcResult.failExit →
      (run w).1 = RunResult.crash PyExc.calledProcessError) ∧
    (effectiveArg w ≠ "" →
      (atoi (effectiveArg w) = none ∨ atoi (effectiveArg w) = some 0) →
      w.gdateProc (effectiveArg w) = ProcResult.missing →
      (run w).1 = RunResult.crash PyExc.fileNotFound) := by
  refine ⟨fun h1 h2 h3 => ⟨?_, ?_⟩, fun cb ha hc h2 h3 => ⟨?_, ?_⟩,
    fun ha hcf => ?_, fun h1 h2 h3 => ?_⟩
  · rw [run_printed_iff, runBody_arg w h1]
    rcases h2 with h2 | h2 <;> simp [resolveStr, h2, gdate, h3, Except.map]
  · simp [buildItems_eq, zonePair]
  · rw [run_printed_iff, runBody_clip_ok w cb ha hc]
    rcases h2 with h2 | h2 <;> simp [resolveStr, h2, gdate, h3, Except.map]
  · simp [buildItems_eq, zonePair]
  · refine run_fst_of_error w PyExc.calledProcessError ⟨true, []⟩ (by decide) ?_
    exact runBody_clip_err w ha PyExc.calledProcessError
      (by simp [read_from_clipboard, hcf])
  · refine run_fst_of_error w PyExc.fileNotFound
      ⟨false, [effectiveArg w]⟩ (by decide) ?_
    rw [runBody_arg w h1]
    rcases h2 with h2 | h2 <;> simp [resolveStr, h2, gdate, h3, Except.map]

/-- Witness for C3, exercising all four conjuncts: argument `"garbage"`
with `date` exiting non-zero; clipboard `"garbage"` with `date` exiting
non-zero; a clipboard process exiting non-zero; and argument `"later"`
with a missing `date` executable. -/
theorem run_absorbs_date_nonzero_exit_witness :
    ((run wGarbage).1 = RunResult.printed (buildItems wGarbage none Source.ARGUMENT) ∧
      (buildItems wGarbage none Source.ARGUMENT).length = 3) ∧
    ((run wClipGarbage).1 =
        RunResult.printed (buildItems wClipGarbage none Source.CLIPBOARD) ∧
      (buildItems wClipGarbage none Source.CLIPBOARD).length = 3) ∧
    (run wClipFailExit).1 = RunResult.crash PyExc.calledProcessError ∧
    (run wDateMissing).1 = RunResult.crash PyExc.fileNotFound :=
  ⟨(run_absorbs_date_nonzero_exit wGarbage).1 (by decide) (Or.inl (by decide)) rfl,
   (run_absorbs_date_nonzero_exit wClipGarbage).2.1 "garbage" rfl rfl
     (Or.inl (by decide)) rfl,
   (run_absorbs_date_nonzero_exit wClipFailExit).2.2.1 rfl rfl,
   (run_absorbs_date_nonzero_exit wDateMissing).2.2.2 (by decide)
     (Or.inl (by decide)) rfl⟩

/-- Counterexample to C3 as stated: a missing clipboard executable is
not absorbed — the run dies with an uncaught `FileNotFoundError` instead
of producing the normal output list with exit code 0. -/
theorem run_crashes_on_missing_clipboard :
    (run wClipMissing).1 = RunResult.crash PyExc.fileNotFound := rfl

/-- C4 (amended): the clipboard is read iff the effective argument is
empty (no CLI argument, or a whitespace-only one); when the effective
argument is non-empty, it is resolved as the input with source
`ARGUMENT` and the clipboard collaborator is never invoked. -/
theorem clipboard_iff_empty_effective_arg (w : World) :
    ((run w).2.clipboardCalled = true ↔ effectiveArg w = "") ∧
      (effectiveArg w ≠ "" →
        inputSource w = Source.ARGUMENT ∧
          runBody w =
            ((resolveStr w (effectiveArg w)).1.map
                (fun ts => buildItems w ts Source.ARGUMENT),
              ⟨false, (resolveStr w (effectiveArg w)).2⟩)) := by
  constructor
  · rw [run_snd]
    by_cases ha : effectiveArg w = ""
    · simp only [ha, iff_true]
      rcases hc : read_from_clipboard w with e | cb
      · rw [runBody_clip_err w ha e hc]
      · rw [runBody_clip_ok w cb ha hc]
    · rw [runBody_arg w ha]
      simp [ha]
  · intro ha
    exact ⟨by simp [inputSource, ha], runBody_arg w ha⟩

/-- Witness for C4: argument `"42"` — clipboard untouched, source is
`ARGUMENT`. -/
theorem clipboard_iff_empty_effective_arg_witness :
    ((run wArg42).2.clipboardCalled = true ↔ effectiveArg wArg42 = "") ∧
      (effectiveArg wArg42 ≠ "" →
        inputSource wArg42 = Source.ARGUMENT ∧
          runBody wArg42 =
            ((resolveStr wArg42 (effectiveArg wArg42)).1.map
                (fun ts => buildItems wArg42 ts Source.ARGUMENT),
              ⟨false, (resolveStr wArg42 (effectiveArg wArg42)).2⟩)) :=
  clipboard_iff_empty_effective_arg wArg42

/-- Counterexample to C4 as stated: with the whitespace-only CLI argument
`"   "` present, the clipboard collaborator is still invoked and the
source is `CLIPBOARD`, not `ARGUMENT`. -/
theorem whitespace_arg_still_reads_clipboard :
    wWsArg.argv.length = 2 ∧ (run wWsArg).2.clipboardCalled = true ∧
      inputSource wWsArg = Source.CLIPBOARD := by
  refine ⟨rfl, rfl, rfl⟩

/-- C5: every printed item list is the input-derived zone pair (possibly
absent), then the current-time local/UTC pair, then exactly the trailing
docs item, and has at least 3 elements. -/
theorem printed_items_shape (w : World) (items : List Entry)
    (h : (run w).1 = RunResult.printed items) :
    ∃ inputPart,
      items = inputPart ++
        (zonePair (localDT w w.nowEpoch) Source.CURRENT ++ [docsEntry]) ∧
      (inputPart = [] ∨
        ∃ n : Int, inputPart = zonePair (localDT w n) (inputSource w)) ∧
      3 ≤ items.length := by
  obtain ⟨ts, hts⟩ := printed_buildItems w items h
  rw [hts, buildItems_eq]
  rcases ts with _ | n
  · exact ⟨[], by simp, Or.inl rfl, by simp [zonePair]⟩
  · by_cases hn : n = 0
    · exact ⟨[], by simp [hn], Or.inl rfl, by simp [hn, zonePair]⟩
    · refine ⟨zonePair (localDT w n) (inputSource w), by simp [hn], ?_, ?_⟩
      · exact Or.inr ⟨n, rfl⟩
      · simp [hn, zonePair]

/-- Witness for C5: the run with argument `"42"` prints `items42`, whose
shape is as stated. -/
theorem printed_items_shape_witness :
    ∃ inputPart,
      items42 = inputPart ++
        (zonePair (localDT wArg42 wArg42.nowEpoch) Source.CURRENT ++ [docsEntry]) ∧
      (inputPart = [] ∨
        ∃ n : Int, inputPart = zonePair (localDT wArg42 n) (inputSource wArg42)) ∧
      3 ≤ items42.length :=
  printed_items_shape wArg42 items42 rfl

/-- C6 (amended): the `Invalid input`/exit-1 path is unreachable (the
argv access is guarded, so no `IndexError` can arise); every run either
prints the item list with exit 0 or dies with an uncaught collaborator
exception. -/
theorem run_never_invalidInput (w : World) :
    (run w).1.isInvalidInput = false ∧
      ((∃ items, (run w).1 = RunResult.printed items) ∨
        (∃ e, (run w).1 = RunResult.crash e)) := by
  have hni := runBody_no_indexError w
  unfold run
  rcases hb : runBody w with ⟨res, tr⟩
  rw [hb] at hni
  rcases res with e | its
  · cases e
    · exact ⟨rfl, Or.inr ⟨PyExc.fileNotFound, rfl⟩⟩
    · exact ⟨rfl, Or.inr ⟨PyExc.calledProcessError, rfl⟩⟩
    · exact ⟨rfl, Or.inr ⟨PyExc.valueError, rfl⟩⟩
    · exact absurd rfl hni
  · exact ⟨rfl, Or.inl ⟨its, rfl⟩⟩

/-- Counterexample to C6 as stated: with empty argv (no indexing failure
occurs — the access is guarded) and a clipboard process exiting
non-zero, the run neither prints the JSON list with exit 0 nor takes the
`Invalid input` path: it dies with an uncaught `CalledProcessError`. -/
theorem empty_argv_clipboard_failure_crashes :
    (run wEmptyArgv).1 = RunResult.crash PyExc.calledProcessError := rfl

/-- C7: a `DatetimeItem`'s rendered record carries modifier entries
exactly when its format is the default one, and then they are the `cmd`
entry (copy value: the epoch-seconds rendering) and the `ctrl` entry
(copy value: the offset-aware rendering), both rendered from the same
instant and source as the parent. -/
theorem dict_mods_spec (d : DT) (s : Source) (f : Format) :
    (DatetimeItem.dict ⟨d, s, f⟩).mods =
      (if f = DEFAULT_FORMAT then
        [("cmd", DatetimeItem.dict ⟨d, s, Format.TIMESTAMP⟩),
         ("ctrl", DatetimeItem.dict ⟨d, s, Format.WITH_TIMEZONE⟩)]
       else []) ∧
      (DatetimeItem.dict ⟨d, s, Format.TIMESTAMP⟩).arg = render d Format.TIMESTAMP ∧
      (DatetimeItem.dict ⟨d, s, Format.WITH_TIMEZONE⟩).arg = render d Format.WITH_TIMEZONE ∧
      (DatetimeItem.dict ⟨d, s, Format.TIMESTAMP⟩).mods = [] ∧
      (DatetimeItem.dict ⟨d, s, Format.WITH_TIMEZONE⟩).mods = [] := by
  refine ⟨?_, ?_, ?_, ?_, ?_⟩
  · rw [DatetimeItem.dict]
    by_cases hf : f = DEFAULT_FORMAT <;> simp [hf, ItemJson.mods]
  · rw [DatetimeItem.dict]
    simp [DEFAULT_FORMAT, ItemJson.arg]
  · rw [DatetimeItem.dict]
    simp [DEFAULT_FORMAT, ItemJson.arg]
  · rw [DatetimeItem.dict]
    simp [DEFAULT_FORMAT, ItemJson.mods]
  · rw [DatetimeItem.dict]
    simp [DEFAULT_FORMAT, ItemJson.mods]

/-- C8: the local item and the UTC item built from the same datetime in
the loop of `main` denote the same absolute instant: they share epoch
seconds, and the wall-clock reading of each rendering minus that
rendering's own offset gives that same epoch. -/
theorem zonePair_same_instant (t : DT) (s : Source) :
    zonePair t s =
      [Entry.dtItem (DatetimeItem.dict ⟨t, s, DEFAULT_FORMAT⟩),
       Entry.dtItem (DatetimeItem.dict ⟨utcOf t, s, DEFAULT_FORMAT⟩)] ∧
      (utcOf t).epoch = t.epoch ∧
      epochFromRendering t = t.epoch ∧
      epochFromRendering (utcOf t) = t.epoch := by
  refine ⟨rfl, rfl, ?_, ?_⟩ <;>
    simp [epochFromRendering, wallSeconds, utcOf]

/-- C9: every printed item list ends with exactly the documentation item,
whose title and copy value are the `DOCS` constant itself. -/
theorem printed_items_docs_last (w : World) (items : List Entry)
    (h : (run w).1 = RunResult.printed items) :
    ∃ i : Item, items.getLast? = some (Entry.plain i) ∧
      i.title = DOCS ∧ i.arg = DOCS := by
  obtain ⟨ts, hts⟩ := printed_buildItems w items h
  refine ⟨⟨DOCS, "Visit `gdate` docs", DOCS⟩, ?_, rfl, rfl⟩
  rw [hts, buildItems_eq, ← List.append_assoc, List.getLast?_append_cons]
  rfl

/-- Witness for C9: the run with argument `"7"` prints `items7`, which
ends with the docs item. -/
theorem printed_items_docs_last_witness :
    ∃ i : Item, items7.getLast? = some (Entry.plain i) ∧
      i.title = DOCS ∧ i.arg = DOCS :=
  printed_items_docs_last wArg7 items7 rfl

/-- C10: when resolution produces epoch value `0` — through the argument
branch or the clipboard branch — the run prints only the current-time
pair and the docs item, with no input-derived items, just as on
resolution failure (`buildItems` at `some 0` equals `buildItems` at
`none` for every source). -/
theorem resolved_zero_like_failure (w : World) :
    (effectiveArg w ≠ "" →
      (resolveStr w (effectiveArg w)).1 = Except.ok (some 0) →
      (run w).1 = RunResult.printed
        (zonePair (localDT w w.nowEpoch) Source.CURRENT ++ [docsEntry])) ∧
    (∀ cb : String, effectiveArg w = "" →
      read_from_clipboard w = Except.ok cb →
      (resolveStr w cb).1 = Except.ok (some 0) →
      (run w).1 = RunResult.printed
        (zonePair (localDT w w.nowEpoch) Source.CURRENT ++ [docsEntry])) ∧
    (∀ s : Source, buildItems w (some 0) s = buildItems w none s) := by
  refine ⟨fun h1 h2 => ?_, fun cb ha hc h2 => ?_, fun s => ?_⟩
  · rw [run_printed_iff, runBody_arg w h1]
    simp [h2, Except.map, buildItems_eq]
  · rw [run_printed_iff, runBody_clip_ok w cb ha hc]
    simp [h2, Except.map, buildItems_eq]
  · simp [buildItems_eq]

/-- Witness for C10: argument `"abc"` resolved by the `date` helper to
epoch `0`, and clipboard text `"abc"` resolved likewise — in both runs
the output has no input-derived items. -/
theorem resolved_zero_like_failure_witness :
    (run wDateZero).1 = RunResult.printed
        (zonePair (localDT wDateZero wDateZero.nowEpoch) Source.CURRENT ++ [docsEntry]) ∧
      (run wClipZero).1 = RunResult.printed
        (zonePair (localDT wClipZero wClipZero.nowEpoch) Source.CURRENT ++ [docsEntry]) ∧
      buildItems wDateZero (some 0) Source.ARGUMENT =
        buildItems wDateZero none Source.ARGUMENT :=
  ⟨(resolved_zero_like_failure wDateZero).1 (by decide) rfl,
   (resolved_zero_like_failure wClipZero).2.1 "abc" rfl rfl rfl,
   (resolved_zero_like_failure wDateZero).2.2 Source.ARGUMENT⟩

end AlfredTime
